import Mathlib

/-!
Verification of the cppbackend HTTP server.

Part 1 embeds the synchronous server's request handler
(`src/sprint1/problems/sync_server/solution/src/main.cpp`):
`MakeStringResponse` and `HandleRequest`, together with the request and
response records they operate on.

Part 2 embeds the asynchronous server's session and listener completion
handlers (`src/sprint1/problems/async_server/solution/src/http_server.cpp`
and `http_server.h`): `SessionBase::OnWrite`, `SessionBase::Read`,
`SessionBase::OnRead`, `SessionBase::Close`, `Listener::OnAccept`.
Each handler is embedded as a function from its completion arguments to the
updated session state together with the list of externally visible actions
it performs (error reports, socket shutdown, newly issued asynchronous
operations); an empty suffix of further operations in that list models the
handler returning without arming another read, write, or accept.
-/

namespace HttpModel

/-- HTTP method. The handler only distinguishes GET, HEAD and everything
else (`http::verb` in the source); other verbs are carried by name. -/
inductive Method where
  | get
  | head
  | other (name : String)
deriving DecidableEq

/-- The `Connection` header of a request, reduced to the three cases the
keep-alive negotiation distinguishes: a `close` token, a `keep-alive`
token, or no relevant token. -/
inductive ConnectionField where
  | close
  | keepAlive
  | absent
deriving DecidableEq

/-- `http::request<http::string_body>` (the fields the handler reads):
method, raw target, numeric version (11 for HTTP/1.1, 10 for HTTP/1.0)
and the Connection header that drives `keep_alive()`. -/
structure StringRequest where
  method : Method
  target : String
  version : Nat
  connection : ConnectionField
deriving DecidableEq

/-- Boost.Beast `request::keep_alive()`, which the source forwards into
every response: for version < 11 the connection is kept alive only when
the request declares `keep-alive`; from HTTP/1.1 on it is kept alive
unless the request declares `close`. -/
def StringRequest.keep_alive (r : StringRequest) : Bool :=
  if r.version < 11 then r.connection == ConnectionField.keepAlive
  else r.connection != ConnectionField.close

/-- `http::response<http::string_body>` restricted to the fields the
handler sets: status, version, the `Content-Type`, `Allow` and
`Content-Length` headers, the body string, and the keep-alive flag. -/
structure StringResponse where
  status : Nat
  version : Nat
  contentType : Option String
  allow : Option String
  contentLength : Option Nat
  body : String
  keepAlive : Bool
deriving DecidableEq

/-- Boost.Beast `response::need_eof()` for a response that carries an
explicit `Content-Length` (all responses this server writes do): the
connection must be closed exactly when the keep-alive flag is off. -/
def StringResponse.need_eof (r : StringResponse) : Bool :=
  !r.keepAlive

/-- `ContentType::TEXT_HTML` from main.cpp. -/
def ContentType.TEXT_HTML : String := "text/html"

/-- `MakeStringResponse` (main.cpp, lines 60-69): sets `Content-Type`,
stores the body, sets `Content-Length` to the body's byte size
(`body.size()` counts bytes, hence `utf8ByteSize`) and the keep-alive
flag. In the source `content_type` is a defaulted parameter; the callers
relevant here all use the default `TEXT_HTML`, passed explicitly. -/
def MakeStringResponse (status : Nat) (body : String) (http_version : Nat)
    (keep_alive : Bool) (content_type : String) : StringResponse :=
  { status := status
    version := http_version
    contentType := some content_type
    allow := none
    contentLength := some body.utf8ByteSize
    body := body
    keepAlive := keep_alive }

/-- The target preprocessing of `HandleRequest` (main.cpp, lines 87-89):
`if (!target.empty() && target.front() == '/') target.erase(0, 1);`.
A leading '/' is one byte, so erasing one byte is dropping one char. -/
def stripLeadingSlash (t : String) : String :=
  if !t.isEmpty && t.front == '/' then t.drop 1 else t

/-- `HandleRequest` (main.cpp, lines 81-117). GET answers 200 with body
`"Hello, " + target`; HEAD builds the same headers and content length but
leaves the body empty; any other method answers 405 with an `Allow`
header and body `"Invalid method."`. Every branch propagates
`req.keep_alive()` and sets `Content-Type: text/html`. -/
def HandleRequest (req : StringRequest) : StringResponse :=
  let target := stripLeadingSlash req.target
  match req.method with
  | Method.get =>
      let body := "Hello, " ++ target
      MakeStringResponse 200 body req.version req.keep_alive ContentType.TEXT_HTML
  | Method.head =>
      let body := "Hello, " ++ target
      { status := 200
        version := req.version
        contentType := some ContentType.TEXT_HTML
        allow := none
        contentLength := some body.utf8ByteSize
        body := ""
        keepAlive := req.keep_alive }
  | Method.other _ =>
      let body := "Invalid method."
      { status := 405
        version := req.version
        contentType := some ContentType.TEXT_HTML
        allow := some "GET, HEAD"
        contentLength := some body.utf8ByteSize
        body := body
        keepAlive := req.keep_alive }

end HttpModel

namespace SessionModel

open HttpModel

/-- Completion error codes the async-server handlers distinguish.
`endOfStream` is `http::error::end_of_stream`; `timeout` is the error the
stream delivers when the `expires_after` deadline fires; `connReset` is an
arbitrary other transport failure; `operationAborted` is the error
delivered to pending handlers when the execution context shuts down.
`none` (of `Option ErrorCode`) is a successful completion. -/
inductive ErrorCode where
  | endOfStream
  | timeout
  | connReset
  | operationAborted
deriving DecidableEq

/-- Operation names passed to `ReportError`. -/
inductive OpName where
  | accept
  | read
  | write
deriving DecidableEq

/-- Externally visible actions a `SessionBase` handler performs, in order:
`report op` is `ReportError(ec, op)`; `shutdownSend` is
`stream_.socket().shutdown(tcp::socket::shutdown_send)`; `asyncRead buf`
is `http::async_read(stream_, buffer_, request_, ...)` against buffer
`buf`; `asyncWrite` is `http::async_write`; `handleRequest` is the virtual
`HandleRequest(std::move(request_))` dispatch. A handler that returns
without appending a further `asyncRead`/`asyncWrite` issues no further
read or write. -/
inductive SAct where
  | report (op : OpName)
  | shutdownSend
  | asyncRead (buffer : Nat)
  | asyncWrite
  | handleRequest
deriving DecidableEq

/-- The mutable per-session data of `SessionBase`: the request holder
`request_` (`none` models a default-constructed, empty request), the
active `expires_after` deadline in seconds, and the identity of the
session's input buffer `buffer_` (fixed for the session's lifetime, so
every read reuses the same buffer). -/
structure SessionState where
  request : Option StringRequest
  expiry : Option Nat
  bufferId : Nat
deriving DecidableEq

/-- `SessionBase::Close` (http_server.cpp, lines 56-59): shut down the
send half of the socket. -/
def SessionBase.Close (s : SessionState) : SessionState × List SAct :=
  (s, [SAct.shutdownSend])

/-- `SessionBase::Read` (http_server.cpp, lines 33-42): reset the request
holder (`request_ = {}`), arm a 30-second deadline
(`stream_.expires_after(30s)`), and issue an asynchronous read into the
session's shared buffer with `OnRead` as continuation. -/
def SessionBase.Read (s : SessionState) : SessionState × List SAct :=
  ({ s with request := none, expiry := some 30 },
   [SAct.asyncRead s.bufferId])

/-- `SessionBase::OnRead` (http_server.cpp, lines 44-54): on
`end_of_stream`, close; on any other error, report it with name "read"
and return; on success, dispatch the parsed request to `HandleRequest`. -/
def SessionBase.OnRead (s : SessionState) (ec : Option ErrorCode) :
    SessionState × List SAct :=
  match ec with
  | some ErrorCode.endOfStream => SessionBase.Close s
  | some _ => (s, [SAct.report OpName.read])
  | none => (s, [SAct.handleRequest])

/-- `SessionBase::OnWrite` (http_server.cpp, lines 19-31): on error,
report it with name "write" and return; otherwise close when the written
response required end-of-file, else loop back to `Read`. The `close`
argument is `safe_response->need_eof()`, bound in `SessionBase::Write`
(http_server.h, lines 38-48). -/
def SessionBase.OnWrite (s : SessionState) (close : Bool)
    (ec : Option ErrorCode) : SessionState × List SAct :=
  match ec with
  | some _ => (s, [SAct.report OpName.write])
  | none => if close then SessionBase.Close s else SessionBase.Read s

/-- `SessionBase::Write` (http_server.h, lines 38-48): move the response
to the heap and issue an asynchronous write whose continuation is
`OnWrite(safe_response->need_eof(), ec, bytes_written)`. -/
def SessionBase.Write (s : SessionState) (_resp : StringResponse) :
    SessionState × List SAct :=
  (s, [SAct.asyncWrite])

/-- Actions of the listener's accept handler: `report op` is
`ReportError(ec, op)`; `runSession` is `AsyncRunSession` (construct and
start a session on the accepted socket); `doAccept` re-issues
`acceptor_.async_accept`. -/
inductive LAct where
  | report (op : OpName)
  | runSession
  | doAccept
deriving DecidableEq

/-- `Listener::OnAccept` (http_server.h, lines 121-130): on any error,
report it with name "accept" and return (the accept loop is not
re-armed); on success, start a session for the accepted socket and
re-issue the next accept. -/
def Listener.OnAccept (ec : Option ErrorCode) : List LAct :=
  match ec with
  | some _ => [LAct.report OpName.accept]
  | none => [LAct.runSession, LAct.doAccept]

/-- A concrete session state used to instantiate the theorems below. -/
def sampleState : SessionState :=
  { request := none, expiry := none, bufferId := 0 }

/-- A concrete response whose keep-alive flag is off. -/
def sampleCloseResponse : StringResponse :=
  { status := 200, version := 11, contentType := none, allow := none,
    contentLength := some 0, body := "", keepAlive := false }

/-- A concrete response whose keep-alive flag is on. -/
def sampleKeepAliveResponse : StringResponse :=
  { status := 200, version := 11, contentType := none, allow := none,
    contentLength := some 0, body := "", keepAlive := true }

end SessionModel

namespace HttpModel

/-- Claim C1: for every GET request the response has status 200, its body
is `"Hello, "` followed by the target after stripping one leading '/',
and its Content-Length equals the byte length of that body. -/
theorem handleRequest_get_ok (req : StringRequest)
    (h : req.method = Method.get) :
    (HandleRequest req).status = 200 ∧
    (HandleRequest req).body = "Hello, " ++ stripLeadingSlash req.target ∧
    (HandleRequest req).contentLength =
      some (HandleRequest req).body.utf8ByteSize := by
  simp [HandleRequest, MakeStringResponse, h]

/-- Witness for C1 at the concrete request `GET /abc HTTP/1.1`. -/
theorem handleRequest_get_ok_witness :
    (HandleRequest
        { method := Method.get, target := "/abc", version := 11,
          connection := ConnectionField.absent }).status = 200 ∧
    (HandleRequest
        { method := Method.get, target := "/abc", version := 11,
          connection := ConnectionField.absent }).body =
      "Hello, " ++ stripLeadingSlash "/abc" ∧
    (HandleRequest
        { method := Method.get, target := "/abc", version := 11,
          connection := ConnectionField.absent }).contentLength =
      some (HandleRequest
        { method := Method.get, target := "/abc", version := 11,
          connection := ConnectionField.absent }).body.utf8ByteSize :=
  handleRequest_get_ok
    { method := Method.get, target := "/abc", version := 11,
      connection := ConnectionField.absent } rfl

/-- Claim C2: for every HEAD request the response has status 200, an empty
body, and the Content-Length a GET with the same target would produce. -/
theorem handleRequest_head_ok (req : StringRequest)
    (h : req.method = Method.head) :
    (HandleRequest req).status = 200 ∧
    (HandleRequest req).body = "" ∧
    (HandleRequest req).contentLength =
      (HandleRequest { req with method := Method.get }).contentLength := by
  simp [HandleRequest, MakeStringResponse, h]

/-- Witness for C2 at the concrete request `HEAD /abc HTTP/1.1`. -/
theorem handleRequest_head_ok_witness :
    (HandleRequest
        { method := Method.head, target := "/abc", version := 11,
          connection := ConnectionField.absent }).status = 200 ∧
    (HandleRequest
        { method := Method.head, target := "/abc", version := 11,
          connection := ConnectionField.absent }).body = "" ∧
    (HandleRequest
        { method := Method.head, target := "/abc", version := 11,
          connection := ConnectionField.absent }).contentLength =
      (HandleRequest
        { method := Method.get, target := "/abc", version := 11,
          connection := ConnectionField.absent }).contentLength :=
  handleRequest_head_ok
    { method := Method.head, target := "/abc", version := 11,
      connection := ConnectionField.absent } rfl

/-- Claim C3: for every request whose method is neither GET nor HEAD, the
response has status 405, an `Allow` header equal to `"GET, HEAD"`, body
`"Invalid method."`, and Content-Length equal to that body's length. -/
theorem handleRequest_other_method (req : StringRequest) (name : String)
    (h : req.method = Method.other name) :
    (HandleRequest req).status = 405 ∧
    (HandleRequest req).allow = some "GET, HEAD" ∧
    (HandleRequest req).body = "Invalid method." ∧
    (HandleRequest req).contentLength =
      some (HandleRequest req).body.utf8ByteSize := by
  simp [HandleRequest, h]

/-- Witness for C3 at the concrete request `POST /abc HTTP/1.1`. -/
theorem handleRequest_other_method_witness :
    (HandleRequest
        { method := Method.other "POST", target := "/abc", version := 11,
          connection := ConnectionField.absent }).status = 405 ∧
    (HandleRequest
        { method := Method.other "POST", target := "/abc", version := 11,
          connection := ConnectionField.absent }).allow = some "GET, HEAD" ∧
    (HandleRequest
        { method := Method.other "POST", target := "/abc", version := 11,
          connection := ConnectionField.absent }).body = "Invalid method." ∧
    (HandleRequest
        { method := Method.other "POST", target := "/abc", version := 11,
          connection := ConnectionField.absent }).contentLength =
      some (HandleRequest
        { method := Method.other "POST", target := "/abc", version := 11,
          connection := ConnectionField.absent }).body.utf8ByteSize :=
  handleRequest_other_method
    { method := Method.other "POST", target := "/abc", version := 11,
      connection := ConnectionField.absent } "POST" rfl

/-- Claim C4: every response carries the request's own keep-alive
negotiation: from HTTP/1.1 on, keep alive unless the request declares
`Connection: close`; below HTTP/1.1 (i.e. HTTP/1.0), close unless the
request declares `keep-alive`. -/
theorem handleRequest_keepAlive (req : StringRequest) :
    (HandleRequest req).keepAlive =
      (if req.version < 11 then req.connection == ConnectionField.keepAlive
       else req.connection != ConnectionField.close) := by
  cases h : req.method <;>
    simp [HandleRequest, MakeStringResponse, StringRequest.keep_alive, h]

/-- Claim C10: every response, in all three branches, carries the header
`Content-Type: text/html`. -/
theorem handleRequest_contentType (req : StringRequest) :
    (HandleRequest req).contentType = some "text/html" := by
  cases h : req.method <;>
    simp [HandleRequest, MakeStringResponse, ContentType.TEXT_HTML, h]

end HttpModel

namespace SessionModel

open HttpModel

/-- Counterexample to claim C5 as stated: an accept completion with a
plain transport error (`connReset`, not a shutdown-delivered
`operationAborted`) only reports; it does not re-issue the next accept,
so an accept error is fatal to the accept loop. -/
theorem onAccept_error_cex :
    Listener.OnAccept (some ErrorCode.connReset) =
      [LAct.report OpName.accept] ∧
    LAct.doAccept ∉ Listener.OnAccept (some ErrorCode.connReset) := by
  decide

/-- Claim C5 amended: on any accept error the listener reports it with
operation name "accept" and terminates the accept loop (no session is
started and no further accept is issued); only a successful accept starts
a session and re-issues the next accept. -/
theorem onAccept_spec (e : ErrorCode) :
    Listener.OnAccept (some e) = [LAct.report OpName.accept] ∧
    Listener.OnAccept none = [LAct.runSession, LAct.doAccept] :=
  ⟨rfl, rfl⟩

/-- Counterexample to claim C6 as stated: a read completing with the
idle-timeout error is reported, but the session does not perform the
close action — `shutdownSend` is absent from its actions. -/
theorem onRead_error_cex :
    SessionBase.OnRead sampleState (some ErrorCode.timeout) =
      (sampleState, [SAct.report OpName.read]) ∧
    SAct.shutdownSend ∉
      (SessionBase.OnRead sampleState (some ErrorCode.timeout)).2 := by
  decide

/-- Claim C6 amended: on a read error other than end-of-stream (the
idle-timeout error included), the session reports the error exactly once
with operation name "read" and issues no further read or write, but it
does not perform the close action (the send half is not shut down); the
session is simply released. -/
theorem onRead_error_reports_only (s : SessionState) (e : ErrorCode)
    (h : e ≠ ErrorCode.endOfStream) :
    SessionBase.OnRead s (some e) = (s, [SAct.report OpName.read]) := by
  cases e <;> simp_all [SessionBase.OnRead]

/-- Witness for the amended C6 at the idle-timeout error. -/
theorem onRead_error_reports_only_witness :
    ErrorCode.timeout ≠ ErrorCode.endOfStream ∧
    SessionBase.OnRead sampleState (some ErrorCode.timeout) =
      (sampleState, [SAct.report OpName.read]) :=
  ⟨by decide,
   onRead_error_reports_only sampleState ErrorCode.timeout (by decide)⟩

/-- Counterexample to claim C7 as stated: a write completion whose
response has keep-alive off and which also reports an error (so the
claim's trigger holds) only reports; the send half is not shut down. -/
theorem onWrite_error_cex :
    sampleCloseResponse.keepAlive = false ∧
    SessionBase.OnWrite sampleState sampleCloseResponse.need_eof
        (some ErrorCode.connReset) =
      (sampleState, [SAct.report OpName.write]) ∧
    SAct.shutdownSend ∉
      (SessionBase.OnWrite sampleState sampleCloseResponse.need_eof
        (some ErrorCode.connReset)).2 := by
  decide

/-- Claim C7 amended: after a write of a response whose keep-alive flag is
false, the session performs no further read; if the write reported an
error it only reports it once with operation name "write" (without
shutting down the send half), and if the write succeeded it shuts down
the send half exactly once, transitioning to Closing exactly once. -/
theorem onWrite_close_or_error (s : SessionState) (resp : StringResponse)
    (ec : Option ErrorCode) (h : resp.keepAlive = false) :
    SessionBase.OnWrite s resp.need_eof ec =
      (s, match ec with
          | some _ => [SAct.report OpName.write]
          | none => [SAct.shutdownSend]) := by
  cases ec <;> simp [SessionBase.OnWrite, SessionBase.Close,
    StringResponse.need_eof, h]

/-- Witness for the amended C7 at a successful write of a non-keep-alive
response. -/
theorem onWrite_close_or_error_witness :
    sampleCloseResponse.keepAlive = false ∧
    SessionBase.OnWrite sampleState sampleCloseResponse.need_eof none =
      (sampleState, [SAct.shutdownSend]) :=
  ⟨rfl, onWrite_close_or_error sampleState sampleCloseResponse none rfl⟩

/-- Claim C8: after a successful write of a response whose keep-alive
flag is true, the session loops back to Reading: the request holder is
reset to an empty request, a 30-second idle deadline is armed, and a new
asynchronous read is issued against the same shared input buffer. -/
theorem onWrite_keepAlive_rearms_read (s : SessionState)
    (resp : StringResponse) (h : resp.keepAlive = true) :
    SessionBase.OnWrite s resp.need_eof none =
      ({ s with request := none, expiry := some 30 },
       [SAct.asyncRead s.bufferId]) := by
  simp [SessionBase.OnWrite, SessionBase.Read, StringResponse.need_eof, h]

/-- Witness for C8 at a successful write of a keep-alive response. -/
theorem onWrite_keepAlive_rearms_read_witness :
    sampleKeepAliveResponse.keepAlive = true ∧
    SessionBase.OnWrite sampleState sampleKeepAliveResponse.need_eof none =
      ({ sampleState with request := none, expiry := some 30 },
       [SAct.asyncRead sampleState.bufferId]) :=
  ⟨rfl,
   onWrite_keepAlive_rearms_read sampleState sampleKeepAliveResponse rfl⟩

/-- Claim C9: a read completing with end-of-stream closes the session
directly (shut down of the send half only) and emits no error report for
that completion. -/
theorem onRead_endOfStream_closes (s : SessionState) :
    SessionBase.OnRead s (some ErrorCode.endOfStream) =
      (s, [SAct.shutdownSend]) ∧
    ∀ op, SAct.report op ∉
      (SessionBase.OnRead s (some ErrorCode.endOfStream)).2 := by
  refine ⟨rfl, ?_⟩
  intro op
  simp [SessionBase.OnRead, SessionBase.Close]

end SessionModel
